import Mathlib

/-!
Verification of the EVMC adapter and VM factory layer of cpp-ethereum
(`libevm/EVMC.cpp`, `libevm/VMFactory.cpp`) against its natural-language
specification.

The C++ code is shallowly embedded:
* machine integers become `Nat`/`Int` with explicit bounds (`int64_t` max is
  `2^63 - 1`, `int32_t` max is `2^31 - 1`, `u256` is a `Nat` reduced mod
  `2^256` on assignment from a signed 64-bit value);
* the foreign backend (`m_instance->execute`) is an abstract function
  parameter producing an `EVMResult` (status, gas left, output);
* the legacy (default) VM's `exec`, whose implementation lives outside the
  analysed translation units, is likewise an abstract function parameter;
* C++ exceptions thrown by `EVMC::exec` become constructors of
  `ExecOutcome`; failed `assert`s become the `ProgrammingError` error of an
  `Except`;
* the process-global registry `g_vmMap` becomes a function
  `String → Option VMMapEntry` threaded through the loader.
-/

/-! ## Feature schedule and revision selection (`EVMC.cpp`, `toRevision`) -/

/-- The feature flags of `EVMSchedule` consulted by `toRevision`
(`EVMC.cpp` lines 118–131).  The C++ `EVMSchedule` has further fields, but
only these five are read by the analysed code. -/
structure EVMSchedule where
  haveCreate2 : Bool
  haveRevert : Bool
  eip158Mode : Bool
  eip150Mode : Bool
  haveDelegateCall : Bool
deriving DecidableEq, Fintype

/-- The EVMC revision tags named by `toRevision`, ordered oldest first as in
the EVMC enumeration (`EVMC_FRONTIER = 0` is the baseline). -/
inductive evmc_revision where
  | EVMC_FRONTIER
  | EVMC_HOMESTEAD
  | EVMC_TANGERINE_WHISTLE
  | EVMC_SPURIOUS_DRAGON
  | EVMC_BYZANTIUM
  | EVMC_CONSTANTINOPLE
deriving DecidableEq, Fintype

/-- Numeric value of a revision tag in the EVMC enumeration; larger means
newer. -/
def revisionIndex : evmc_revision → Nat
  | .EVMC_FRONTIER => 0
  | .EVMC_HOMESTEAD => 1
  | .EVMC_TANGERINE_WHISTLE => 2
  | .EVMC_SPURIOUS_DRAGON => 3
  | .EVMC_BYZANTIUM => 4
  | .EVMC_CONSTANTINOPLE => 5

/-- Embedding of `toRevision` (`EVMC.cpp` lines 118–131): a cascade of `if`s
from newest flag to oldest. -/
def toRevision (s : EVMSchedule) : evmc_revision :=
  if s.haveCreate2 then .EVMC_CONSTANTINOPLE
  else if s.haveRevert then .EVMC_BYZANTIUM
  else if s.eip158Mode then .EVMC_SPURIOUS_DRAGON
  else if s.eip150Mode then .EVMC_TANGERINE_WHISTLE
  else if s.haveDelegateCall then .EVMC_HOMESTEAD
  else .EVMC_FRONTIER

/-- The five feature flags as a type, for stating the spec's priority order
and the monotonicity property. -/
inductive Feature where
  | create2
  | revert
  | eip158
  | eip150
  | delegateCall
deriving DecidableEq, Fintype

/-- Whether a feature flag is enabled in a schedule. -/
def featureEnabled (s : EVMSchedule) : Feature → Bool
  | .create2 => s.haveCreate2
  | .revert => s.haveRevert
  | .eip158 => s.eip158Mode
  | .eip150 => s.eip150Mode
  | .delegateCall => s.haveDelegateCall

/-- The revision tag each feature selects. -/
def featureRevision : Feature → evmc_revision
  | .create2 => .EVMC_CONSTANTINOPLE
  | .revert => .EVMC_BYZANTIUM
  | .eip158 => .EVMC_SPURIOUS_DRAGON
  | .eip150 => .EVMC_TANGERINE_WHISTLE
  | .delegateCall => .EVMC_HOMESTEAD

/-- The spec's fixed priority order, newest feature first. -/
def priorityOrder : List Feature :=
  [.create2, .revert, .eip158, .eip150, .delegateCall]

/-- Revision selection written from the spec's words: scan the priority
list newest-to-oldest, return the revision of the first enabled flag, or the
baseline revision when none is enabled.  To be compared with `toRevision`,
which is embedded from the source. -/
def specSelectRevision (s : EVMSchedule) : evmc_revision :=
  match priorityOrder.find? (featureEnabled s) with
  | some f => featureRevision f
  | none => .EVMC_FRONTIER

/-- Set one feature flag of a schedule, leaving the others unchanged. -/
def enableFeature (f : Feature) (s : EVMSchedule) : EVMSchedule :=
  match f with
  | .create2 => { s with haveCreate2 := true }
  | .revert => { s with haveRevert := true }
  | .eip158 => { s with eip158Mode := true }
  | .eip150 => { s with eip150Mode := true }
  | .delegateCall => { s with haveDelegateCall := true }

/-! ## The EVMC adapter's `exec` (`EVMC.cpp` lines 53–116) -/

/-- `std::numeric_limits<int64_t>::max()`, as a natural number. -/
def int64maxN : Nat := 2 ^ 63 - 1

/-- `std::numeric_limits<int32_t>::max()`, as a natural number (the source
compares `size_t depth` against it after a widening cast). -/
def int32maxN : Nat := 2 ^ 31 - 1

/-- `static_cast<int64_t>` of an unsigned 256-bit value held as a `Nat`:
two's-complement reinterpretation of the low 64 bits.  `EVMC::exec` only
performs this cast after asserting the value is at most `int64maxN`, where
it is the identity. -/
def toInt64 (x : Nat) : Int :=
  let r : Nat := x % 2 ^ 64
  if r < 2 ^ 63 then (r : Int) else (r : Int) - 2 ^ 64

/-- Assignment of a signed 64-bit value to a `u256` (`io_gas = r.gasLeft()`):
reduction modulo `2^256`. -/
def u256OfInt64 (x : Int) : Nat := (x % 2 ^ 256).toNat

/-- The `evmc_status_code` values named in the `switch` of `EVMC::exec`;
`other c` stands for any status code not among the named ones (the `default`
branch), carrying the raw code. -/
inductive EvmcStatusCode where
  | EVMC_SUCCESS
  | EVMC_REVERT
  | EVMC_OUT_OF_GAS
  | EVMC_FAILURE
  | EVMC_UNDEFINED_INSTRUCTION
  | EVMC_BAD_JUMP_DESTINATION
  | EVMC_STACK_OVERFLOW
  | EVMC_STACK_UNDERFLOW
  | EVMC_STATIC_MODE_VIOLATION
  | EVMC_REJECTED
  | other (code : Int)
deriving DecidableEq

/-- The foreign result of one backend execution (`EVM::Result`): status
code, remaining gas (`int64_t`), output bytes. -/
structure EVMResult where
  status : EvmcStatusCode
  gasLeft : Int
  output : List Nat
deriving DecidableEq

/-- The environment-info fields of the execution context read by
`EVMC::exec`: block number and timestamp (signed in the host), block gas
limit (`u256`). -/
structure EnvInfo where
  number : Int
  timestamp : Int
  gasLimit : Nat
deriving DecidableEq

/-- The fields of `ExtVMFace` read by `EVMC::exec`: environment info, call
depth (`size_t`), code bytes, feature schedule. -/
structure ExtVMFace where
  envInfo : EnvInfo
  depth : Nat
  code : List Nat
  evmSchedule : EVMSchedule
deriving DecidableEq

/-- The caller-visible outcome of one `EVMC::exec` call.  `returned` is the
normal return of the output bytes (status `EVMC_SUCCESS`); the remaining
constructors are the exceptions the source throws, with `revert` carrying
the output of `RevertInstruction` and `internalVMError` the raw status code
of `InternalVMError`. -/
inductive ExecOutcome where
  | returned (output : List Nat)
  | revert (output : List Nat)
  | outOfGas
  | badInstruction
  | badJumpDestination
  | outOfStack
  | stackUnderflow
  | disallowedStateChange
  | internalVMError (code : Int)
deriving DecidableEq

/-- A violated `assert` in `EVMC::exec`: a precondition of the foreign call
boundary does not hold.  Fatal; no backend call is made. -/
inductive ProgrammingError where
  | programmingError
deriving DecidableEq

/-- The `exec` of the legacy (default) VM, abstracted: it takes the in-out
gas value and the context and produces an outcome together with the final
gas value.  Its implementation (`LegacyVM::exec`) is outside the analysed
translation units. -/
def LegacyExec : Type := Nat → ExtVMFace → ExecOutcome × Nat

/-- A backend's foreign `execute` entry point, abstracted: context and
signed 64-bit gas in, `EVMResult` out. -/
def Backend : Type := ExtVMFace → Int → EVMResult

/-- The `switch (r.status())` of `EVMC::exec` (lines 78–115): translate the
foreign result `r` into an outcome and the final value of `io_gas`.
`EVMC_SUCCESS` and `EVMC_REVERT` write `r.gasLeft()` back into `io_gas`; the
throwing branches leave `io_gas` at its entry value; `EVMC_REJECTED` hands
`io_gas` and the context to the default (legacy) VM and returns its
result. -/
def mapEvmcResult (legacyExec : LegacyExec) (io_gas : Nat) (ext : ExtVMFace)
    (r : EVMResult) : ExecOutcome × Nat :=
  match r.status with
  | .EVMC_SUCCESS => (.returned r.output, u256OfInt64 r.gasLeft)
  | .EVMC_REVERT => (.revert r.output, u256OfInt64 r.gasLeft)
  | .EVMC_OUT_OF_GAS => (.outOfGas, io_gas)
  | .EVMC_FAILURE => (.outOfGas, io_gas)
  | .EVMC_UNDEFINED_INSTRUCTION => (.badInstruction, io_gas)
  | .EVMC_BAD_JUMP_DESTINATION => (.badJumpDestination, io_gas)
  | .EVMC_STACK_OVERFLOW => (.outOfStack, io_gas)
  | .EVMC_STACK_UNDERFLOW => (.stackUnderflow, io_gas)
  | .EVMC_STATIC_MODE_VIOLATION => (.disallowedStateChange, io_gas)
  | .EVMC_REJECTED => legacyExec io_gas ext
  | .other c => (.internalVMError c, io_gas)

/-- Embedding of `EVMC::exec` (`EVMC.cpp` lines 53–116).  The five
`assert`s are checked in source order; a violation is `ProgrammingError`
and the backend is never consulted.  Otherwise `io_gas` is narrowed to a
signed 64-bit value, the backend is invoked, and its result is translated
by `mapEvmcResult`. -/
def EVMC.exec (legacyExec : LegacyExec) (backend : Backend)
    (io_gas : Nat) (ext : ExtVMFace) :
    Except ProgrammingError (ExecOutcome × Nat) :=
  if ¬ (0 ≤ ext.envInfo.number) then .error .programmingError
  else if ¬ (0 ≤ ext.envInfo.timestamp) then .error .programmingError
  else if ¬ (io_gas ≤ int64maxN) then .error .programmingError
  else if ¬ (ext.envInfo.gasLimit ≤ int64maxN) then .error .programmingError
  else if ¬ (ext.depth ≤ int32maxN) then .error .programmingError
  else
    let gas := toInt64 io_gas
    .ok (mapEvmcResult legacyExec io_gas ext (backend ext gas))

/-- The conjunction of the five asserted preconditions of `EVMC::exec`. -/
def execPreconds (io_gas : Nat) (ext : ExtVMFace) : Prop :=
  0 ≤ ext.envInfo.number ∧ 0 ≤ ext.envInfo.timestamp ∧
    io_gas ≤ int64maxN ∧ ext.envInfo.gasLimit ≤ int64maxN ∧
    ext.depth ≤ int32maxN

instance (io_gas : Nat) (ext : ExtVMFace) : Decidable (execPreconds io_gas ext) := by
  unfold execPreconds; infer_instance

/-! ## Options accumulation and application (`VMFactory.cpp` lines 93–104,
`EVMC.cpp` lines 14–22) -/

/-- The observable state of one `evmc_instance`, for specifying which
`set_option` calls it has received: the list of (name, value) pairs, in call
order. -/
structure EvmcInstanceState where
  optionCalls : List (String × String)
deriving DecidableEq

/-- A freshly constructed `evmc_instance`: no `set_option` call received
yet. -/
def freshInstance : EvmcInstanceState := { optionCalls := [] }

/-- The effect of `m_instance->set_option(m_instance, name, value)` on the
observable instance state: the call is appended to the record. -/
def evmcSetOption (st : EvmcInstanceState) (name value : String) : EvmcInstanceState :=
  { st with optionCalls := st.optionCalls ++ [(name, value)] }

/-- Embedding of the `EVM::EVM` constructor loop (`EVMC.cpp` lines 19–21):
for each accumulated pair, in order, call `set_option` on the wrapped
instance. -/
def EVM.construct (opts : List (String × String)) (st : EvmcInstanceState) :
    EvmcInstanceState :=
  opts.foldl (fun s p => evmcSetOption s p.1 p.2) st

/-- Index of the first occurrence of a character in a character list
(`std::string::find`), `none` for `npos`. -/
def findCharIdx (c : Char) : List Char → Option Nat
  | [] => none
  | x :: xs => if x = c then some 0 else (findCharIdx c xs).map (· + 1)

/-- Embedding of the split of one `--evmc name=value` argument
(`VMFactory.cpp` lines 95–103): find the first `=`; missing `=` is an
`invalid_syntax` error carrying the option text behind the option name;
otherwise split into the part before the `=` (the name) and the part after
it (the value). -/
def parseEvmcOption (s : String) : Except String (String × String) :=
  match findCharIdx '=' s.data with
  | none => .error ("evmc " ++ s)
  | some separatorPos =>
    .ok (⟨s.data.take separatorPos⟩, ⟨s.data.drop (separatorPos + 1)⟩)

/-- Embedding of `parseEvmcOptions`: split each argument and append the
pairs to the accumulated options list `acc` (the global `s_evmcOptions`) in
arrival order; the first malformed argument aborts with its error. -/
def parseEvmcOptions (opts : List String) (acc : List (String × String)) :
    Except String (List (String × String)) :=
  match opts with
  | [] => .ok acc
  | s :: rest =>
    match parseEvmcOption s with
    | .error e => .error e
    | .ok p => parseEvmcOptions rest (acc ++ [p])

/-! ## Registry, dynamic loader and factory (`VMFactory.cpp`) -/

/-- The VM kinds of `VMKind` (`VMFactory.h`); `JIT` and `Hera` exist only
under build flags but the enumerators are always present. -/
inductive VMKind where
  | Interpreter
  | Legacy
  | JIT
  | Hera
  | DLL
deriving DecidableEq

/-- One entry of `g_vmMap`: the kind tag and, for dynamically loaded
backends, the identity of the imported create function as the (path,
symbol) pair `dll::import` was given; `none` models the empty
`std::function` of the built-in entries. -/
structure VMMapEntry where
  kind : VMKind
  createFn : Option (String × String)
deriving DecidableEq

/-- The registry `g_vmMap`, as a map from backend name to entry. -/
def VMMap : Type := String → Option VMMapEntry

/-- `g_vmMap[name] = entry`: update one key, keep the rest. -/
def vmMapInsert (m : VMMap) (name : String) (entry : VMMapEntry) : VMMap :=
  fun n => if n = name then some entry else m n

/-- The initial contents of `g_vmMap` (`VMFactory.cpp` lines 55–64) in the
default build configuration (no JIT, no Hera): the two built-in entries. -/
def g_vmMapInit : VMMap :=
  fun n =>
    if n = "interpreter" then some ⟨VMKind.Interpreter, none⟩
    else if n = "legacy" then some ⟨VMKind.Legacy, none⟩
    else none

/-- What the dynamic loader can observe about the shared artifact at one
path: its exported symbol names in table order, and the name and version the
backend self-reports when its create function is invoked once. -/
structure DllInfo where
  symbols : List String
  vmName : String
  vmVersion : String
deriving DecidableEq

/-- A filesystem of shared artifacts: what `dll::library_info` and
`dll::import` find at each path. -/
def DllFilesystem : Type := String → DllInfo

/-- `symbol.find("evmc_create_") == 0`: the symbol name starts with the
fixed required string `evmc_create_`. -/
def isEvmcCreateSymbol (symbol : String) : Bool :=
  "evmc_create_".data.isPrefixOf symbol.data

/-- Embedding of one iteration of `loadEvmcDlls` (`VMFactory.cpp` lines
108–129) for a single path: find the first exported symbol whose name
starts with `evmc_create_`; absence is a loading error whose message names
the path, and nothing is registered; otherwise register the (path, symbol)
create function under the backend's self-reported name, overwriting any
existing entry. -/
def loadEvmcDll (fs : DllFilesystem) (m : VMMap) (path : String) :
    Except String VMMap :=
  match (fs path).symbols.find? (fun symbol => isEvmcCreateSymbol symbol) with
  | none => .error ("loading " ++ path ++ " failed: EVMC create function not found")
  | some symbol =>
    .ok (vmMapInsert m (fs path).vmName ⟨VMKind.DLL, some (path, symbol)⟩)

/-- Embedding of `loadEvmcDlls` over a path list: the registry is threaded
through the loop; the first failing path stops the loop with its error,
leaving the registrations of the earlier paths in place (the exception
propagates out of the loop while `g_vmMap` is a global). -/
def loadEvmcDlls (fs : DllFilesystem) (m : VMMap) :
    List String → VMMap × Option String
  | [] => (m, none)
  | path :: rest =>
    match loadEvmcDll fs m path with
    | .error e => (m, some e)
    | .ok m2 => loadEvmcDlls fs m2 rest

/-- What `VMFactory::create` returns, by provenance: the legacy built-in VM,
or an EVMC adapter wrapping the instance made by the named create
function. -/
inductive CreatedVM where
  | legacyVM
  | evmcVM (createSymbol : String)
deriving DecidableEq

/-- Embedding of `VMFactory::create(VMKind)` (`VMFactory.cpp` lines
187–205) in the default build configuration: `Interpreter` wraps
`evmc_create_interpreter()` in an EVMC adapter; `Legacy` and every kind
without a `case` label — including `DLL` — fall to the `default:` branch and
produce a `LegacyVM`.  The registry's stored create functions are not
consulted. -/
def VMFactory.create : VMKind → CreatedVM
  | VMKind.Interpreter => .evmcVM "evmc_create_interpreter"
  | _ => .legacyVM

/-! ## Concrete fixtures used by the witness theorems -/

/-- A concrete legacy-VM behaviour for witnesses: returns empty output and
leaves the gas value unchanged. -/
def wLegacy : LegacyExec := fun g _ => (.returned [77], g + 1)

/-- A concrete environment for witnesses. -/
def wEnv : EnvInfo := { number := 10, timestamp := 20, gasLimit := 1000 }

/-- A concrete context for witnesses. -/
def wExt : ExtVMFace :=
  { envInfo := wEnv, depth := 1, code := [0], evmSchedule :=
      ⟨false, false, false, false, false⟩ }

/-- A concrete backend for witnesses, returning a fixed result. -/
def wBackend (r : EVMResult) : Backend := fun _ _ => r

/-- A concrete context with an oversized block gas limit, for the C10
witness. -/
def wExtBigGasLimit : ExtVMFace :=
  { envInfo := { number := 10, timestamp := 20, gasLimit := 2 ^ 63 },
    depth := 1, code := [0], evmSchedule := ⟨false, false, false, false, false⟩ }

/-- A concrete artifact filesystem for the C7 witness: the path `bad.so`
exports no symbol with the required name shape. -/
def wFs : DllFilesystem := fun path =>
  if path = "bad.so" then ⟨["foo", "bar"], "badvm", "0.1"⟩
  else ⟨["evmc_create_good"], "goodvm", "1.0"⟩

/-- A concrete artifact filesystem for C8: two distinct paths whose backends
self-report the same name `samename`. -/
def wFs2 : DllFilesystem := fun path =>
  if path = "first.so" then ⟨["evmc_create_aleph"], "samename", "1.0"⟩
  else if path = "second.so" then ⟨["pad", "evmc_create_beth"], "samename", "2.0"⟩
  else ⟨[], "unused", "0"⟩

/-! ## Helper lemmas -/

/-- When all five asserted preconditions hold, `EVMC::exec` narrows the gas,
invokes the backend and translates its result through the status switch. -/
theorem exec_eq_of_preconds (legacyExec : LegacyExec) (backend : Backend)
    (io_gas : Nat) (ext : ExtVMFace) (h : execPreconds io_gas ext) :
    EVMC.exec legacyExec backend io_gas ext =
      .ok (mapEvmcResult legacyExec io_gas ext (backend ext (toInt64 io_gas))) := by
  obtain ⟨h1, h2, h3, h4, h5⟩ := h
  simp [EVMC.exec, h1, h2, h3, h4, h5]

/-- When some asserted precondition fails, `EVMC::exec` is a programming
error, whichever backend is installed. -/
theorem exec_eq_error_of_not_preconds (legacyExec : LegacyExec) (backend : Backend)
    (io_gas : Nat) (ext : ExtVMFace) (h : ¬ execPreconds io_gas ext) :
    EVMC.exec legacyExec backend io_gas ext = .error .programmingError := by
  unfold execPreconds at h
  unfold EVMC.exec
  split_ifs with h1 h2 h3 h4 h5 <;>
    first
      | rfl
      | exact absurd ⟨h1, h2, h3, h4, h5⟩ h

/-- In the range admitted by the gas precondition, the narrowing cast to a
signed 64-bit value is the numeric identity. -/
theorem toInt64_eq_of_le (g : Nat) (h : g ≤ int64maxN) : toInt64 g = (g : Int) := by
  have h63 : g < 2 ^ 63 := by
    have e : int64maxN = 2 ^ 63 - 1 := rfl
    omega
  have h64 : g < 2 ^ 64 := by omega
  simp only [toInt64, Nat.mod_eq_of_lt h64]
  rw [if_pos h63]

/-- The constructor loop records exactly the accumulated pairs, appended in
order to whatever the instance had already received. -/
theorem construct_optionCalls (opts : List (String × String)) (st : EvmcInstanceState) :
    (EVM.construct opts st).optionCalls = st.optionCalls ++ opts := by
  induction opts generalizing st with
  | nil => simp [EVM.construct]
  | cons p rest ih =>
    show (EVM.construct rest (evmcSetOption st p.1 p.2)).optionCalls = _
    rw [ih]
    simp [evmcSetOption]

/-! ## Claim theorems -/

/-- C4: for every feature schedule, `toRevision` evaluates the flags in the
fixed newest-to-oldest priority order — create-with-deterministic-address
support (`haveCreate2`), revert-with-output support (`haveRevert`),
state-clearing rules (`eip158Mode`), increased-cost repricing
(`eip150Mode`), delegated-call support (`haveDelegateCall`) — and returns
the revision tag of the first enabled flag; when none is enabled it returns
the oldest (baseline) revision `EVMC_FRONTIER`. -/
theorem toRevision_eq_spec : ∀ s : EVMSchedule, toRevision s = specSelectRevision s := by
  decide

/-- C5: the revision selector is monotonic — for every schedule, the
schedule obtained by additionally enabling one feature flag while leaving
all already-enabled flags enabled maps to a revision never older than the
original schedule's revision. -/
theorem toRevision_monotone :
    ∀ (s : EVMSchedule) (f : Feature),
      revisionIndex (toRevision s) ≤ revisionIndex (toRevision (enableFeature f s)) := by
  decide

/-- C1: whenever the preconditions of `EVMC::exec` hold and the backend
returns result `r`, the foreign status is mapped to the caller-visible
outcome exactly per the spec's table: success returns the output with
`io_gas` updated to the gas left; revert raises `RevertInstruction` with the
output and `io_gas` updated to the gas left; out-of-gas and generic failure
both raise `OutOfGas`; undefined instruction, bad jump target, stack
overflow, stack underflow and static-context violation raise their
respective exceptions; and any other status raises `InternalVMError`
retaining the raw code.  (In the embedding an exception is an `ExecOutcome`
constructor paired with the final `io_gas` value.) -/
theorem exec_status_mapping (legacyExec : LegacyExec) (backend : Backend)
    (io_gas : Nat) (ext : ExtVMFace) (r : EVMResult)
    (h : execPreconds io_gas ext)
    (hr : backend ext (toInt64 io_gas) = r) :
    (r.status = .EVMC_SUCCESS →
      EVMC.exec legacyExec backend io_gas ext =
        .ok (.returned r.output, u256OfInt64 r.gasLeft)) ∧
    (r.status = .EVMC_REVERT →
      EVMC.exec legacyExec backend io_gas ext =
        .ok (.revert r.output, u256OfInt64 r.gasLeft)) ∧
    ((r.status = .EVMC_OUT_OF_GAS ∨ r.status = .EVMC_FAILURE) →
      EVMC.exec legacyExec backend io_gas ext = .ok (.outOfGas, io_gas)) ∧
    (r.status = .EVMC_UNDEFINED_INSTRUCTION →
      EVMC.exec legacyExec backend io_gas ext = .ok (.badInstruction, io_gas)) ∧
    (r.status = .EVMC_BAD_JUMP_DESTINATION →
      EVMC.exec legacyExec backend io_gas ext = .ok (.badJumpDestination, io_gas)) ∧
    (r.status = .EVMC_STACK_OVERFLOW →
      EVMC.exec legacyExec backend io_gas ext = .ok (.outOfStack, io_gas)) ∧
    (r.status = .EVMC_STACK_UNDERFLOW →
      EVMC.exec legacyExec backend io_gas ext = .ok (.stackUnderflow, io_gas)) ∧
    (r.status = .EVMC_STATIC_MODE_VIOLATION →
      EVMC.exec legacyExec backend io_gas ext = .ok (.disallowedStateChange, io_gas)) ∧
    (∀ c : Int, r.status = .other c →
      EVMC.exec legacyExec backend io_gas ext = .ok (.internalVMError c, io_gas)) := by
  have hex := exec_eq_of_preconds legacyExec backend io_gas ext h
  rw [hr] at hex
  refine ⟨?_, ?_, ?_, ?_, ?_, ?_, ?_, ?_, ?_⟩
  · intro hs; rw [hex]; simp [mapEvmcResult, hs]
  · intro hs; rw [hex]; simp [mapEvmcResult, hs]
  · rintro (hs | hs) <;> (rw [hex]; simp [mapEvmcResult, hs])
  · intro hs; rw [hex]; simp [mapEvmcResult, hs]
  · intro hs; rw [hex]; simp [mapEvmcResult, hs]
  · intro hs; rw [hex]; simp [mapEvmcResult, hs]
  · intro hs; rw [hex]; simp [mapEvmcResult, hs]
  · intro hs; rw [hex]; simp [mapEvmcResult, hs]
  · intro c hs; rw [hex]; simp [mapEvmcResult, hs]

/-- Witness for C1: at a concrete input whose backend reports success with
gas left 42 and output `[1, 2]`, the preconditions hold and `exec` returns
that output with the gas value updated to 42. -/
theorem exec_status_mapping_witness :
    execPreconds 9 wExt ∧
    EVMC.exec wLegacy (wBackend ⟨.EVMC_SUCCESS, 42, [1, 2]⟩) 9 wExt =
      .ok (.returned [1, 2], u256OfInt64 42) :=
  ⟨by decide,
    (exec_status_mapping wLegacy (wBackend ⟨.EVMC_SUCCESS, 42, [1, 2]⟩) 9 wExt
      ⟨.EVMC_SUCCESS, 42, [1, 2]⟩ (by decide) rfl).1 rfl⟩

/-- C2: for every gas value `g` with `0 ≤ g ≤ 2^63 − 1`, `EVMC::exec`
forwards `g` unchanged to the backend — the narrowing to a signed 64-bit
value is the numeric identity and the backend is invoked at exactly
`(g : Int)` — and for any `g` outside this range, or any context with block
number < 0, timestamp < 0, or call depth > 2^31 − 1, `exec` fails with a
programming error, whatever the backend (no backend call is made). -/
theorem exec_gas_forwarding (legacyExec : LegacyExec) (backend : Backend)
    (io_gas : Nat) (ext : ExtVMFace) :
    (io_gas ≤ int64maxN →
      toInt64 io_gas = (io_gas : Int) ∧
      (execPreconds io_gas ext →
        EVMC.exec legacyExec backend io_gas ext =
          .ok (mapEvmcResult legacyExec io_gas ext (backend ext (io_gas : Int))))) ∧
    ((int64maxN < io_gas ∨ ext.envInfo.number < 0 ∨ ext.envInfo.timestamp < 0 ∨
        int32maxN < ext.depth) →
      EVMC.exec legacyExec backend io_gas ext = .error .programmingError) := by
  constructor
  · intro hg
    refine ⟨toInt64_eq_of_le io_gas hg, ?_⟩
    intro h
    rw [exec_eq_of_preconds legacyExec backend io_gas ext h, toInt64_eq_of_le io_gas hg]
  · intro hviol
    apply exec_eq_error_of_not_preconds
    rintro ⟨h1, h2, h3, h4, h5⟩
    rcases hviol with hv | hv | hv | hv <;> omega

/-- Witness for C2: with gas 9 the backend is invoked at exactly `(9 : Int)`
and the narrowing is the identity; with gas `2^63` (one above the admitted
range) `exec` is a programming error. -/
theorem exec_gas_forwarding_witness :
    (toInt64 9 = (9 : Int) ∧
      EVMC.exec wLegacy (wBackend ⟨.EVMC_SUCCESS, 3, []⟩) 9 wExt =
        .ok (mapEvmcResult wLegacy 9 wExt (wBackend ⟨.EVMC_SUCCESS, 3, []⟩ wExt (9 : Int)))) ∧
    EVMC.exec wLegacy (wBackend ⟨.EVMC_SUCCESS, 3, []⟩) (2 ^ 63) wExt =
      .error .programmingError := by
  constructor
  · have h := (exec_gas_forwarding wLegacy (wBackend ⟨.EVMC_SUCCESS, 3, []⟩) 9 wExt).1
      (by decide)
    exact ⟨h.1, h.2 (by decide)⟩
  · exact (exec_gas_forwarding wLegacy (wBackend ⟨.EVMC_SUCCESS, 3, []⟩) (2 ^ 63) wExt).2
      (Or.inl (by decide))

/-- C3: whenever the preconditions hold and the backend reports
`EVMC_REJECTED`, exactly one fallback execution is performed: the designated
default backend — `VMFactory::create(VMKind::Legacy)`, which constructs a
fresh `LegacyVM` — is run with the identical gas value and context, and its
outcome (including its final gas value) is exactly what the original caller
observes. -/
theorem exec_rejected_fallback (legacyExec : LegacyExec) (backend : Backend)
    (io_gas : Nat) (ext : ExtVMFace)
    (h : execPreconds io_gas ext)
    (hrej : (backend ext (toInt64 io_gas)).status = .EVMC_REJECTED) :
    VMFactory.create VMKind.Legacy = CreatedVM.legacyVM ∧
    EVMC.exec legacyExec backend io_gas ext = .ok (legacyExec io_gas ext) := by
  refine ⟨rfl, ?_⟩
  rw [exec_eq_of_preconds legacyExec backend io_gas ext h]
  simp [mapEvmcResult, hrej]

/-- Witness for C3: with a backend that reports `EVMC_REJECTED` at gas 9,
the caller observes exactly the legacy VM's result on gas 9 and the same
context. -/
theorem exec_rejected_fallback_witness :
    VMFactory.create VMKind.Legacy = CreatedVM.legacyVM ∧
    EVMC.exec wLegacy (wBackend ⟨.EVMC_REJECTED, 3, []⟩) 9 wExt =
      .ok (wLegacy 9 wExt) :=
  exec_rejected_fallback wLegacy (wBackend ⟨.EVMC_REJECTED, 3, []⟩) 9 wExt
    (by decide) rfl

/-- C9: when the preconditions hold and the backend's status is one of the
failure statuses (out-of-gas, generic failure, undefined instruction, bad
jump target, stack overflow, stack underflow, static-context violation) or
an unrecognized code, the in-out gas value is left exactly as it was on
entry; only the success and revert statuses write the remaining gas back
into it. -/
theorem exec_failure_preserves_gas (legacyExec : LegacyExec) (backend : Backend)
    (io_gas : Nat) (ext : ExtVMFace) (r : EVMResult)
    (h : execPreconds io_gas ext)
    (hr : backend ext (toInt64 io_gas) = r) :
    ((r.status = .EVMC_OUT_OF_GAS ∨ r.status = .EVMC_FAILURE ∨
        r.status = .EVMC_UNDEFINED_INSTRUCTION ∨
        r.status = .EVMC_BAD_JUMP_DESTINATION ∨
        r.status = .EVMC_STACK_OVERFLOW ∨ r.status = .EVMC_STACK_UNDERFLOW ∨
        r.status = .EVMC_STATIC_MODE_VIOLATION ∨ (∃ c, r.status = .other c)) →
      ∃ outcome, EVMC.exec legacyExec backend io_gas ext = .ok (outcome, io_gas)) ∧
    ((r.status = .EVMC_SUCCESS ∨ r.status = .EVMC_REVERT) →
      ∃ outcome, EVMC.exec legacyExec backend io_gas ext =
        .ok (outcome, u256OfInt64 r.gasLeft)) := by
  have hex := exec_eq_of_preconds legacyExec backend io_gas ext h
  rw [hr] at hex
  constructor
  · rintro (hs | hs | hs | hs | hs | hs | hs | ⟨c, hs⟩) <;>
      (rw [hex]; simp [mapEvmcResult, hs])
  · rintro (hs | hs) <;> (rw [hex]; simp [mapEvmcResult, hs])

/-- Witness for C9: a backend failing with stack overflow and 7 gas left
does not disturb the entry gas value 9, while a reverting backend with 7
gas left writes 7 back. -/
theorem exec_failure_preserves_gas_witness :
    (∃ outcome, EVMC.exec wLegacy (wBackend ⟨.EVMC_STACK_OVERFLOW, 7, []⟩) 9 wExt =
      .ok (outcome, 9)) ∧
    (∃ outcome, EVMC.exec wLegacy (wBackend ⟨.EVMC_REVERT, 7, [1]⟩) 9 wExt =
      .ok (outcome, u256OfInt64 7)) :=
  ⟨(exec_failure_preserves_gas wLegacy (wBackend ⟨.EVMC_STACK_OVERFLOW, 7, []⟩) 9 wExt
      ⟨.EVMC_STACK_OVERFLOW, 7, []⟩ (by decide) rfl).1
      (Or.inr (Or.inr (Or.inr (Or.inr (Or.inl rfl))))),
    (exec_failure_preserves_gas wLegacy (wBackend ⟨.EVMC_REVERT, 7, [1]⟩) 9 wExt
      ⟨.EVMC_REVERT, 7, [1]⟩ (by decide) rfl).2 (Or.inr rfl)⟩

/-- C10: `EVMC::exec` enforces a precondition beyond the spec's list — the
context's block gas limit must also be at most `2^63 − 1`; a context
violating it is a programming error, fatal and backend-independent, exactly
like the listed gas, block-number, timestamp and depth conditions. -/
theorem exec_gasLimit_precondition (legacyExec : LegacyExec) (backend : Backend)
    (io_gas : Nat) (ext : ExtVMFace)
    (h1 : 0 ≤ ext.envInfo.number) (h2 : 0 ≤ ext.envInfo.timestamp)
    (h3 : io_gas ≤ int64maxN) (h5 : ext.depth ≤ int32maxN)
    (hbig : int64maxN < ext.envInfo.gasLimit) :
    EVMC.exec legacyExec backend io_gas ext = .error .programmingError := by
  apply exec_eq_error_of_not_preconds
  rintro ⟨_, _, _, h4, _⟩
  omega

/-- Witness for C10: a context satisfying every listed precondition but
whose block gas limit is `2^63` makes `exec` a programming error. -/
theorem exec_gasLimit_precondition_witness :
    EVMC.exec wLegacy (wBackend ⟨.EVMC_SUCCESS, 3, []⟩) 9 wExtBigGasLimit =
      .error .programmingError :=
  exec_gasLimit_precondition wLegacy (wBackend ⟨.EVMC_SUCCESS, 3, []⟩) 9 wExtBigGasLimit
    (by decide) (by decide) (by decide) (by decide) (by decide)

/-- C6: every backend instance constructed after options have been
accumulated (by `parseEvmcOptions` into the process-wide list) receives one
`set_option` call per accumulated (name, value) pair, exactly in
accumulation order, during construction — hence before its first
execution. -/
theorem constructed_backend_receives_options (args : List String)
    (opts : List (String × String))
    (hparse : parseEvmcOptions args [] = .ok opts) :
    (EVM.construct opts freshInstance).optionCalls = opts := by
  rw [construct_optionCalls]
  simp [freshInstance]

/-- Witness for C6: arguments `x=1` and `y=2` accumulate as
`[("x","1"), ("y","2")]`, and a backend constructed afterwards receives
exactly those two calls in that order. -/
theorem constructed_backend_receives_options_witness :
    parseEvmcOptions ["x=1", "y=2"] [] = .ok [("x", "1"), ("y", "2")] ∧
    (EVM.construct [("x", "1"), ("y", "2")] freshInstance).optionCalls =
      [("x", "1"), ("y", "2")] :=
  ⟨rfl, constructed_backend_receives_options ["x=1", "y=2"] [("x", "1"), ("y", "2")] rfl⟩

/-- C7: for every path whose artifact exports no symbol starting with the
required `evmc_create_` string, the loader raises a loading error whose
message names that path, and the registry is left exactly as it was —
nothing is registered for that path. -/
theorem load_no_create_symbol (fs : DllFilesystem) (m : VMMap) (path : String)
    (rest : List String)
    (h : ∀ symbol ∈ (fs path).symbols, isEvmcCreateSymbol symbol = false) :
    loadEvmcDlls fs m (path :: rest) =
      (m, some ("loading " ++ path ++ " failed: EVMC create function not found")) := by
  have hfind :
      (fs path).symbols.find? (fun symbol => isEvmcCreateSymbol symbol) = none := by
    rw [List.find?_eq_none]
    intro x hx
    simp [h x hx]
  simp [loadEvmcDlls, loadEvmcDll, hfind]

/-- Witness for C7: the artifact at `bad.so` exports only `foo` and `bar`,
so loading it fails with a message naming `bad.so` and the registry keeps
its initial contents. -/
theorem load_no_create_symbol_witness :
    (∀ symbol ∈ (wFs "bad.so").symbols, isEvmcCreateSymbol symbol = false) ∧
    loadEvmcDlls wFs g_vmMapInit ["bad.so"] =
      (g_vmMapInit, some "loading bad.so failed: EVMC create function not found") :=
  ⟨by decide,
    load_no_create_symbol wFs g_vmMapInit "bad.so" [] (by decide)⟩

/-- C8 (divergence witness): loading `first.so` and then `second.so`, whose
backends both self-report the name `samename`, leaves the registry with the
second registration — kind `DLL` and the create function imported from
`(second.so, evmc_create_beth)` — exactly as the claim's first half states;
but `VMFactory::create` never consults the stored create function: it has
no `case` for `VMKind::DLL`, which falls to the `default:` branch and
produces the legacy built-in VM, contradicting the claim's second half. -/
theorem create_ignores_loaded_backend :
    (loadEvmcDlls wFs2 g_vmMapInit ["first.so", "second.so"]).1 "samename" =
      some ⟨VMKind.DLL, some ("second.so", "evmc_create_beth")⟩ ∧
    VMFactory.create VMKind.DLL = CreatedVM.legacyVM := by
  exact ⟨by decide, rfl⟩
